import Mathlib

/-!
Verification of the mixnet bridging engine of `rust-libp2p-nym`
(`src/src/mixnet.rs`) against its specification.

The pump functions `check_inbound`, `handle_inbound`, `check_outbound`,
`write_bytes` and `write_reply_bytes` are embedded as pure functions that
return the Rust function's `Result` together with an explicit trace of the
observable effects (notify signals, inbound-queue enqueues, network calls).
The asynchronous channel endpoints are abstracted as liveness flags and the
mixnet client's send results as boolean oracles.  The spawned pump loop
(`mixnet.rs` lines 42-54) discards the result of both `select!` branches
(`_ = t1 => {}` / `_ = t2 => {}`) and loops unconditionally; it is embedded
as `pump_run`, which folds the per-branch step over a schedule of branch
completions regardless of each branch's result.

The `message` and `error` modules of the crate are not part of the shown
sources; their definitions below are modelled from the spec and marked as
such in their doc comments.
-/

/-- Modelled from the spec: `ConnectionId` is an opaque unique identifier for
one logical connection (the `message` module is not among the shown sources). -/
abbrev ConnectionId := Nat

/-- Modelled from the spec: `SubstreamId` is an opaque unique identifier for
one logical byte stream inside a connection. -/
abbrev SubstreamId := Nat

/-- Modelled from the spec: a `Recipient` is a stable, publishable mixnet
address (provided by the external mixnet client crate). -/
abbrev Recipient := Nat

/-- Modelled from the spec: an `AnonymousSenderTag` is an opaque anonymous
reply handle derived from an inbound message. -/
abbrev SenderTag := Nat

/-- Modelled from the spec: `message_type` of a substream message is one of
`OpenRequest`, `OpenResponse`, `Data(bytes)` or `Close` (the `message` module
is not among the shown sources; variant names follow `mixnet.rs`). -/
inductive SubstreamMessageType where
  | OpenRequest : SubstreamMessageType
  | OpenResponse : SubstreamMessageType
  | Data : List Nat → SubstreamMessageType
  | Close : SubstreamMessageType
deriving DecidableEq

/-- Modelled from the spec: `SubstreamMessage { substream_id, message_type }`. -/
structure SubstreamMessage where
  substream_id : SubstreamId
  message_type : SubstreamMessageType
deriving DecidableEq

/-- Modelled from the spec: `TransportMessage { nonce, connection_id,
substream_message }`; field names `nonce`, `id`, `message` follow the uses in
`mixnet.rs`. -/
structure TransportMessage where
  nonce : Nat
  id : ConnectionId
  message : SubstreamMessage
deriving DecidableEq

/-- Modelled from the spec: the `Message` sum type with its three variants.
`ConnectionRequest` carries the initiator's identity material (a byte
buffer); `ConnectionResponse` accepts or rejects a request. -/
inductive Message where
  | ConnectionRequest : List Nat → Message
  | ConnectionResponse : Bool → Message
  | TransportMessage : TransportMessage → Message
deriving DecidableEq

/-- Modelled from the spec: the error kinds named by `mixnet.rs` (the `error`
module is not among the shown sources).  `MalformedMessage` is the decode
failure named by the spec. -/
inductive Error where
  | InboundSendFailure : String → Error
  | OutboundSendFailure : String → Error
  | RecvFailure : Error
  | Unimplemented : Error
  | MalformedMessage : Error
deriving DecidableEq

/-- Modelled from the spec: wire encoding of a `SubstreamMessageType`
(deterministic tag-prefixed buffer; the concrete scheme is private to the
transport, only stability and round-tripping are specified). -/
def SubstreamMessageType.enc : SubstreamMessageType → List Nat
  | .OpenRequest => [0]
  | .OpenResponse => [1]
  | .Data bytes => 2 :: bytes
  | .Close => [3]

/-- Modelled from the spec: wire encoding of a `SubstreamMessage`. -/
def SubstreamMessage.enc (sm : SubstreamMessage) : List Nat :=
  sm.substream_id :: sm.message_type.enc

/-- Modelled from the spec: `Message::to_bytes()`, deterministic serialization
of a `Message` to a byte buffer. -/
def Message.to_bytes : Message → List Nat
  | .ConnectionRequest identity => 0 :: identity.length :: identity
  | .ConnectionResponse accepted => [1, if accepted then 1 else 0]
  | .TransportMessage tm => 2 :: tm.nonce :: tm.id :: tm.message.enc

/-- Modelled from the spec: decoding of a `SubstreamMessageType`; an
ill-formed buffer fails with `MalformedMessage`. -/
def SubstreamMessageType.dec : List Nat → Except Error SubstreamMessageType
  | [0] => .ok .OpenRequest
  | [1] => .ok .OpenResponse
  | 2 :: bytes => .ok (.Data bytes)
  | [3] => .ok .Close
  | _ => .error .MalformedMessage

/-- Modelled from the spec: decoding of a `SubstreamMessage`. -/
def SubstreamMessage.dec : List Nat → Except Error SubstreamMessage
  | sid :: rest => (SubstreamMessageType.dec rest).map (fun t => ⟨sid, t⟩)
  | [] => .error .MalformedMessage

/-- Modelled from the spec: `Message::from_bytes()`, total for well-formed
buffers, failing with `MalformedMessage` on an ill-formed buffer rather than
panicking. -/
def Message.from_bytes : List Nat → Except Error Message
  | 0 :: n :: rest =>
      if rest.length = n then .ok (.ConnectionRequest rest)
      else .error .MalformedMessage
  | [1, 1] => .ok (.ConnectionResponse true)
  | [1, 0] => .ok (.ConnectionResponse false)
  | 2 :: nonce :: id :: rest =>
      (SubstreamMessage.dec rest).map (fun sm => .TransportMessage ⟨nonce, id, sm⟩)
  | _ => .error .MalformedMessage

/-- Modelled from the spec: `InboundMessage` pairs a decoded `Message` with the
optional anonymous reply tag of the packet that carried it. -/
structure InboundMessage where
  message : Message
  sender_tag : Option SenderTag
deriving DecidableEq

/-- Modelled from the spec: `OutboundMessage { message, recipient, sender_tag }`
as matched on by `check_outbound` in `mixnet.rs`. -/
structure OutboundMessage where
  message : Message
  recipient : Option Recipient
  sender_tag : Option SenderTag
deriving DecidableEq

/-- A `ReconstructedMessage` delivered by the mixnet client: raw bytes plus an
optional anonymous sender tag (external `nym_sphinx` type, as used by
`check_inbound` and `handle_inbound` in `mixnet.rs`). -/
structure ReconstructedMessage where
  message : List Nat
  sender_tag : Option SenderTag
deriving DecidableEq

/-- Modelled from the spec: `parse_message_data` (in the `message` module, not
among the shown sources) decodes the raw packet bytes into a `Message` and
pairs it with the packet's optional sender tag; an undecodable buffer fails
with `MalformedMessage`. -/
def parse_message_data (bytes : List Nat) (sender_tag : Option SenderTag) :
    Except Error InboundMessage :=
  (Message.from_bytes bytes).map (fun m => ⟨m, sender_tag⟩)

/-- Observable effects of the inbound branch of the pump: a `()` signal sent on
the notify channel, or an `InboundMessage` enqueued on the inbound queue. -/
inductive InEffect where
  | notify : InEffect
  | enqueue : InboundMessage → InEffect
deriving DecidableEq

/-- Observable network calls of the outbound branch: `send_message` to a
recipient (the direct send primitive used by `write_bytes`) or `send_reply` to
a sender tag (the reply primitive used by `write_reply_bytes`).  An effect is
recorded when the call is attempted, whether or not it succeeds. -/
inductive NetEffect where
  | send_to : Recipient → List Nat → NetEffect
  | reply_to : SenderTag → List Nat → NetEffect
deriving DecidableEq

/-- Channel environment of the inbound branch: whether a notify channel was
supplied (`notify_inbound_tx` is `Some`), whether its receiver is still alive,
and whether the inbound queue's receiver is still alive.  A `send` on a
channel whose receiver was dropped returns an error in the Rust code. -/
structure InEnv where
  notify_supplied : Bool
  notify_alive : Bool
  inbound_alive : Bool
deriving DecidableEq

/-- Result oracles for the mixnet client's underlying send calls: whether
`send_message` to a given recipient / `send_reply` to a given tag succeeds. -/
structure OutEnv where
  send_ok : Recipient → List Nat → Bool
  reply_ok : SenderTag → List Nat → Bool

/-- `write_bytes` (`mixnet.rs` lines 160-173): attempts `send_message` to the
recipient and returns `Err(Unimplemented)` when the underlying call fails.
The call is attempted (a network effect occurs) in both cases. -/
def write_bytes (env : OutEnv) (recipient : Recipient) (message : List Nat) :
    Except Error Unit × List NetEffect :=
  if env.send_ok recipient message then (.ok (), [.send_to recipient message])
  else (.error .Unimplemented, [.send_to recipient message])

/-- `write_reply_bytes` (`mixnet.rs` lines 175-185): attempts `send_reply` to
the sender tag and returns `Err(Unimplemented)` when the underlying call
fails.  The call is attempted (a network effect occurs) in both cases. -/
def write_reply_bytes (env : OutEnv) (sender_tag : SenderTag) (message : List Nat) :
    Except Error Unit × List NetEffect :=
  if env.reply_ok sender_tag message then (.ok (), [.reply_to sender_tag message])
  else (.error .Unimplemented, [.reply_to sender_tag message])

/-- `handle_inbound` (`mixnet.rs` lines 77-88): decode the packet with
`parse_message_data`, propagating its error, then send the resulting
`InboundMessage` on the inbound queue, mapping a send error (receiver
dropped) to `InboundSendFailure`. -/
def handle_inbound (env : InEnv) (msg : ReconstructedMessage) :
    Except Error Unit × List InEffect :=
  match parse_message_data msg.message msg.sender_tag with
  | .error e => (.error e, [])
  | .ok data =>
      if env.inbound_alive then (.ok (), [.enqueue data])
      else (.error (.InboundSendFailure "channel closed"), [])

/-- `check_inbound` (`mixnet.rs` lines 59-75): on the next packet from the
client, first send `()` on the notify channel when one was supplied (a send
error, receiver dropped, maps to `InboundSendFailure` and returns early via
`?`), then run `handle_inbound`, propagating its error via `?`; every path
that does not return early falls through to `Err(Unimplemented)`.  `next` is
the result of `client.next().await` (`none` when the stream ends). -/
def check_inbound (env : InEnv) (next : Option ReconstructedMessage) :
    Except Error Unit × List InEffect :=
  match next with
  | none => (.error .Unimplemented, [])
  | some msg =>
      if env.notify_supplied then
        if env.notify_alive then
          match handle_inbound env msg with
          | (.ok _, effs) => (.error .Unimplemented, .notify :: effs)
          | (.error e, effs) => (.error e, .notify :: effs)
        else (.error (.InboundSendFailure "channel closed"), [])
      else
        match handle_inbound env msg with
        | (.ok _, effs) => (.error .Unimplemented, effs)
        | (.error e, effs) => (.error e, effs)

/-- `check_outbound` (`mixnet.rs` lines 90-158): dequeue the next
`OutboundMessage` (`recvd` is the result of `outbound_rx.recv().await`, `none`
when the senders were dropped, in which case `Err(RecvFailure)` is returned).
After an exhaustive logging match on the message kind (pure `debug!` output,
not modelled), the dispatch match prefers `sender_tag` (`(_, Some(sender_tag))`
is the first arm), falls back to `recipient`, and returns
`Err(OutboundSendFailure)` without any network call when neither is set. -/
def check_outbound (env : OutEnv) (recvd : Option OutboundMessage) :
    Except Error Unit × List NetEffect :=
  match recvd with
  | none => (.error .RecvFailure, [])
  | some message =>
      match message.recipient, message.sender_tag with
      | _, some sender_tag =>
          write_reply_bytes env sender_tag message.message.to_bytes
      | some recipient, none =>
          write_bytes env recipient message.message.to_bytes
      | none, none =>
          (.error (.OutboundSendFailure
            "No recipient or sender_tag provided, cannot route message"), [])

/-- One completed branch of the pump's `select!`: either the inbound future
resolved with the next packet (or end of stream), or the outbound future
resolved with the next dequeued message (or a closed queue). -/
inductive PumpEvent where
  | inbound : Option ReconstructedMessage → PumpEvent
  | outbound : Option OutboundMessage → PumpEvent
deriving DecidableEq

/-- Effects of one pump iteration in which the given branch completed.  The
loop body (`mixnet.rs` lines 49-52) binds each branch's result to `_` and does
nothing with it, so the step keeps only the effect trace. -/
def pump_step (ienv : InEnv) (oenv : OutEnv) : PumpEvent → List InEffect × List NetEffect
  | .inbound next => ((check_inbound ienv next).2, [])
  | .outbound recvd => ([], (check_outbound oenv recvd).2)

/-- The spawned pump loop (`mixnet.rs` lines 42-54) over a schedule of branch
completions: `loop` runs unconditionally, discarding both branch results
(`_ = t1 => {}` / `_ = t2 => {}`), so every scheduled event is processed
regardless of any earlier branch's error. -/
def pump_run (ienv : InEnv) (oenv : OutEnv) : List PumpEvent → List InEffect × List NetEffect
  | [] => ([], [])
  | ev :: rest =>
      let s := pump_step ienv oenv ev
      let r := pump_run ienv oenv rest
      (s.1 ++ r.1, s.2 ++ r.2)

/-- The inbound messages enqueued in a trace, in order. -/
def InEffect.enqueues : List InEffect → List InboundMessage
  | [] => []
  | .enqueue d :: rest => d :: enqueues rest
  | .notify :: rest => enqueues rest

/-- The reply primitive always records exactly the attempted `send_reply`
call, whether or not it succeeds. -/
theorem write_reply_bytes_trace (env : OutEnv) (tag : SenderTag) (m : List Nat) :
    (write_reply_bytes env tag m).2 = [NetEffect.reply_to tag m] := by
  unfold write_reply_bytes
  split <;> rfl

/-- The direct send primitive always records exactly the attempted
`send_message` call, whether or not it succeeds. -/
theorem write_bytes_trace (env : OutEnv) (r : Recipient) (m : List Nat) :
    (write_bytes env r m).2 = [NetEffect.send_to r m] := by
  unfold write_bytes
  split <;> rfl

/-- Claim C1: an `OutboundMessage` whose `sender_tag` is `Some` — whatever its
`recipient` field holds — is dispatched by `check_outbound` through the reply
primitive `write_reply_bytes` with that tag, and no direct `send_message` call
is attempted for it. -/
theorem check_outbound_reply_precedence (oenv : OutEnv) (m : Message)
    (r : Option Recipient) (tag : SenderTag) :
    check_outbound oenv (some ⟨m, r, some tag⟩)
      = write_reply_bytes oenv tag m.to_bytes ∧
    (check_outbound oenv (some ⟨m, r, some tag⟩)).2
      = [NetEffect.reply_to tag m.to_bytes] ∧
    ∀ rec b, NetEffect.send_to rec b ∉ (check_outbound oenv (some ⟨m, r, some tag⟩)).2 := by
  have hdisp : check_outbound oenv (some ⟨m, r, some tag⟩)
      = write_reply_bytes oenv tag m.to_bytes := by
    cases r <;> rfl
  refine ⟨hdisp, ?_, ?_⟩
  · rw [hdisp, write_reply_bytes_trace]
  · intro rec b hmem
    rw [hdisp, write_reply_bytes_trace] at hmem
    simp at hmem

/-- Claim C2: an `OutboundMessage` with neither `recipient` nor `sender_tag`
set is rejected by `check_outbound` with the `OutboundSendFailure` routing
error and an empty network trace: no mixnet send or reply call is attempted. -/
theorem check_outbound_no_route (oenv : OutEnv) (m : Message) :
    check_outbound oenv (some ⟨m, none, none⟩)
      = (.error (.OutboundSendFailure
          "No recipient or sender_tag provided, cannot route message"), []) :=
  rfl

/-- Claim C3: decoding the byte buffer produced by encoding any `Message`
yields the same `Message` back. -/
theorem message_round_trip (m : Message) :
    Message.from_bytes (Message.to_bytes m) = .ok m := by
  cases m with
  | ConnectionRequest identity =>
      simp [Message.to_bytes, Message.from_bytes]
  | ConnectionResponse accepted =>
      cases accepted <;> rfl
  | TransportMessage tm =>
      obtain ⟨nonce, id, sm⟩ := tm
      obtain ⟨sid, t⟩ := sm
      cases t <;>
        simp [Message.to_bytes, Message.from_bytes, SubstreamMessage.enc,
          SubstreamMessageType.enc, SubstreamMessage.dec, SubstreamMessageType.dec,
          Except.map]

/-- Claim C4: a packet whose bytes fail to decode is dropped (nothing is
enqueued for it) and the pump keeps running: a later packet that decodes
successfully is still delivered on the inbound queue.  The notify hypothesis
only rules out the unrelated notify-receiver-dropped failure. -/
theorem pump_malformed_then_valid_delivered (ienv : InEnv) (oenv : OutEnv)
    (bad good : ReconstructedMessage) (e : Error) (m : Message)
    (hq : ienv.inbound_alive = true)
    (hn : ienv.notify_supplied = true → ienv.notify_alive = true)
    (hb : Message.from_bytes bad.message = .error e)
    (hg : Message.from_bytes good.message = .ok m) :
    InEffect.enqueues
        (pump_run ienv oenv [.inbound (some bad), .inbound (some good)]).1
      = [⟨m, good.sender_tag⟩] := by
  obtain ⟨ns, na, ia⟩ := ienv
  cases ns with
  | false =>
      cases ia with
      | false => exact absurd hq (by simp)
      | true =>
          simp [pump_run, pump_step, check_inbound, handle_inbound,
            parse_message_data, hb, hg, Except.map, InEffect.enqueues]
  | true =>
      have hna : na = true := hn rfl
      cases ia with
      | false => exact absurd hq (by simp)
      | true =>
          subst hna
          simp [pump_run, pump_step, check_inbound, handle_inbound,
            parse_message_data, hb, hg, Except.map, InEffect.enqueues]

/-- Claim C4 witness: with live channels, an undecodable buffer `[]` followed
by the encoding of `ConnectionResponse true` results in exactly the decoded
second message being enqueued. -/
theorem pump_malformed_then_valid_delivered_witness :
    InEffect.enqueues
        (pump_run ⟨true, true, true⟩ ⟨fun _ _ => true, fun _ _ => true⟩
          [.inbound (some ⟨[], none⟩), .inbound (some ⟨[1, 1], some 4⟩)]).1
      = [⟨.ConnectionResponse true, some 4⟩] :=
  pump_malformed_then_valid_delivered ⟨true, true, true⟩
    ⟨fun _ _ => true, fun _ _ => true⟩ ⟨[], none⟩ ⟨[1, 1], some 4⟩
    .MalformedMessage (.ConnectionResponse true) rfl (fun _ => rfl) rfl rfl

/-- Claim C5 (code bug evidence): when `outbound_rx.recv()` yields `None`,
`check_outbound` does return `Err(RecvFailure)`, but the spawned loop discards
the branch result and keeps looping: a message dequeued on a later iteration
is still dispatched, so the pump task is not terminated by the closed queue. -/
theorem check_outbound_queue_closed_pump_loops :
    check_outbound ⟨fun _ _ => true, fun _ _ => true⟩ none
      = (.error .RecvFailure, []) ∧
    (pump_run ⟨false, false, false⟩ ⟨fun _ _ => true, fun _ _ => true⟩
        [.outbound none, .outbound (some ⟨.ConnectionResponse true, some 3, none⟩)]).2
      = [NetEffect.send_to 3 (Message.to_bytes (.ConnectionResponse true))] :=
  ⟨rfl, rfl⟩

/-- Claim C6: when a notify channel was supplied, any run of `check_inbound`
that enqueues an `InboundMessage` has the trace `[notify, enqueue]`: exactly
one notify signal, sent before the message is enqueued. -/
theorem check_inbound_notify_once_before_enqueue (ienv : InEnv)
    (next : Option ReconstructedMessage) (d : InboundMessage)
    (hs : ienv.notify_supplied = true)
    (hm : InEffect.enqueue d ∈ (check_inbound ienv next).2) :
    (check_inbound ienv next).2 = [InEffect.notify, InEffect.enqueue d] := by
  obtain ⟨ns, na, ia⟩ := ienv
  have hns : ns = true := hs
  subst hns
  cases next with
  | none => simp [check_inbound] at hm
  | some msg =>
      cases na with
      | false => simp [check_inbound] at hm
      | true =>
          cases hp : parse_message_data msg.message msg.sender_tag with
          | error e =>
              simp [check_inbound, handle_inbound, hp] at hm
          | ok data =>
              cases ia with
              | false => simp [check_inbound, handle_inbound, hp] at hm
              | true =>
                  simp [check_inbound, handle_inbound, hp] at hm ⊢
                  simp [hm]

/-- Claim C6 witness: on the concrete packet `[1, 0]` with live channels, the
trace is exactly one notify signal followed by the enqueue. -/
theorem check_inbound_notify_once_before_enqueue_witness :
    (check_inbound ⟨true, true, true⟩ (some ⟨[1, 0], some 9⟩)).2
      = [InEffect.notify, InEffect.enqueue ⟨.ConnectionResponse false, some 9⟩] :=
  check_inbound_notify_once_before_enqueue ⟨true, true, true⟩
    (some ⟨[1, 0], some 9⟩) ⟨.ConnectionResponse false, some 9⟩ rfl
    (by simp [check_inbound, handle_inbound, parse_message_data, Message.from_bytes,
      Except.map])

/-- Claim C7: `check_inbound` never returns `Ok`: every path, including the
successful receive-decode-enqueue path, ends in an `Err` (the success path
falls through to `Err(Unimplemented)`). -/
theorem check_inbound_never_ok (ienv : InEnv) (next : Option ReconstructedMessage) :
    ∃ e, (check_inbound ienv next).1 = .error e := by
  obtain ⟨ns, na, ia⟩ := ienv
  cases next with
  | none => exact ⟨.Unimplemented, rfl⟩
  | some msg =>
      cases hp : parse_message_data msg.message msg.sender_tag with
      | error e =>
          cases ns <;> cases na <;>
            simp [check_inbound, handle_inbound, hp]
      | ok data =>
          cases ns <;> cases na <;> cases ia <;>
            simp [check_inbound, handle_inbound, hp]

/-- Claim C8: a failing `send_message` for one recipient-routed message and a
failing `send_reply` for one tag-routed message each yield
`Err(Unimplemented)` for that message only; the pump continues past both and
a later dequeued message is still dispatched (all three network calls are
attempted, the later one succeeding). -/
theorem pump_continues_after_send_failure (ienv : InEnv) (oenv : OutEnv)
    (m1 m2 m3 : Message) (r1 r2 : Recipient) (t3 : SenderTag)
    (hf : oenv.send_ok r1 m1.to_bytes = false)
    (hr : oenv.reply_ok t3 m3.to_bytes = false)
    (hs : oenv.send_ok r2 m2.to_bytes = true) :
    (check_outbound oenv (some ⟨m1, some r1, none⟩)).1 = .error .Unimplemented ∧
    (check_outbound oenv (some ⟨m3, none, some t3⟩)).1 = .error .Unimplemented ∧
    (check_outbound oenv (some ⟨m2, some r2, none⟩)).1 = .ok () ∧
    (pump_run ienv oenv
        [.outbound (some ⟨m1, some r1, none⟩),
         .outbound (some ⟨m3, none, some t3⟩),
         .outbound (some ⟨m2, some r2, none⟩)]).2
      = [NetEffect.send_to r1 m1.to_bytes,
         NetEffect.reply_to t3 m3.to_bytes,
         NetEffect.send_to r2 m2.to_bytes] := by
  refine ⟨?_, ?_, ?_, ?_⟩ <;>
    simp [check_outbound, write_bytes, write_reply_bytes, pump_run, pump_step,
      hf, hr, hs]

/-- Claim C8 witness: with a client that fails sends to recipient 1 and every
reply, but accepts sends to recipient 2, a failed direct send and a failed
reply still leave the third message dispatched. -/
theorem pump_continues_after_send_failure_witness :
    (pump_run ⟨false, false, false⟩ ⟨fun r _ => decide (r = 2), fun _ _ => false⟩
        [.outbound (some ⟨.ConnectionResponse true, some 1, none⟩),
         .outbound (some ⟨.ConnectionResponse true, none, some 7⟩),
         .outbound (some ⟨.ConnectionResponse false, some 2, none⟩)]).2
      = [NetEffect.send_to 1 (Message.to_bytes (.ConnectionResponse true)),
         NetEffect.reply_to 7 (Message.to_bytes (.ConnectionResponse true)),
         NetEffect.send_to 2 (Message.to_bytes (.ConnectionResponse false))] :=
  (pump_continues_after_send_failure ⟨false, false, false⟩
    ⟨fun r _ => decide (r = 2), fun _ _ => false⟩
    (.ConnectionResponse true) (.ConnectionResponse false)
    (.ConnectionResponse true) 1 2 7 rfl rfl rfl).2.2.2

/-- Claim C9: with a live notify channel supplied, the notify signal fires
even for a packet whose bytes fail to decode — the trace is exactly one
notify with no enqueue, so a signal can be delivered with no corresponding
`InboundMessage` on the inbound queue. -/
theorem check_inbound_notify_on_malformed (ienv : InEnv)
    (msg : ReconstructedMessage) (e : Error)
    (hs : ienv.notify_supplied = true) (ha : ienv.notify_alive = true)
    (hm : Message.from_bytes msg.message = .error e) :
    (check_inbound ienv (some msg)).2 = [InEffect.notify] ∧
    InEffect.enqueues (check_inbound ienv (some msg)).2 = [] := by
  obtain ⟨ns, na, ia⟩ := ienv
  have hns : ns = true := hs
  have hna : na = true := ha
  subst hns hna
  constructor <;>
    simp [check_inbound, handle_inbound, parse_message_data, hm, Except.map,
      InEffect.enqueues]

/-- Claim C9 witness: the undecodable buffer `[]` produces exactly one notify
signal and no enqueue. -/
theorem check_inbound_notify_on_malformed_witness :
    (check_inbound ⟨true, true, true⟩ (some ⟨[], some 6⟩)).2 = [InEffect.notify] :=
  (check_inbound_notify_on_malformed ⟨true, true, true⟩ ⟨[], some 6⟩
    .MalformedMessage rfl rfl rfl).1

/-- Claim C10: when the supplied notify channel's receiver has been dropped,
`check_inbound` returns `InboundSendFailure` with an empty trace: no decode
result is enqueued and the packet is discarded, whatever its bytes. -/
theorem check_inbound_notify_receiver_dropped (ienv : InEnv)
    (msg : ReconstructedMessage)
    (hs : ienv.notify_supplied = true) (ha : ienv.notify_alive = false) :
    check_inbound ienv (some msg)
      = (.error (.InboundSendFailure "channel closed"), []) := by
  obtain ⟨ns, na, ia⟩ := ienv
  have hns : ns = true := hs
  have hna : na = false := ha
  subst hns hna
  rfl

/-- Claim C10 witness: a perfectly decodable packet is discarded when the
notify receiver is gone. -/
theorem check_inbound_notify_receiver_dropped_witness :
    check_inbound ⟨true, false, true⟩ (some ⟨[1, 1], none⟩)
      = (.error (.InboundSendFailure "channel closed"), []) :=
  check_inbound_notify_receiver_dropped ⟨true, false, true⟩ ⟨[1, 1], none⟩ rfl rfl
